import Mathlib

/-!
# Verification of the Grafana Cloud secrets engine (credential lifecycle core)

A shallow embedding of the engine's source into Lean 4, together with theorems
settling the frozen claims about it.  Each definition mirrors one Go function
or one sequential block of a Go function; machine integers are modelled as
`Int`/`Nat`, fallible calls as `Except`, and the Vault field-data maps as
structures of `Option` fields (`some` = the field was present in the raw
request data, which is what `FieldData.GetOk`'s boolean reports).

External collaborators (the upstream Grafana HTTP client library and the
host's storage) are not code of this repository; they are modelled as
explicit oracles/parameters, documented at each site.
-/

namespace GrafanaCloud

/-! ## Data model (path_config.go, roles source file) -/

/-- `grafanaCloudConfig` (path_config.go): the stored configuration record. -/
structure grafanaCloudConfig where
  Organisation : String
  Key : String
  URL : String
  User : String
  PrometheusUser : String
  PrometheusURL : String
  LokiUser : String
  LokiURL : String
  TempoUser : String
  TempoURL : String
  AlertmanagerUser : String
  AlertmanagerURL : String
  GraphiteUser : String
  GraphiteURL : String
deriving Repr, DecidableEq

/-- `new(grafanaCloudConfig)`: the Go zero value, all fields empty. -/
def emptyConfig : grafanaCloudConfig :=
  { Organisation := "", Key := "", URL := "", User := ""
    PrometheusUser := "", PrometheusURL := "", LokiUser := "", LokiURL := ""
    TempoUser := "", TempoURL := "", AlertmanagerUser := "", AlertmanagerURL := ""
    GraphiteUser := "", GraphiteURL := "" }

/-- `CloudAPIType` constant. -/
def CloudAPIType : String := "Cloud"

/-- `GrafanaAPIType` constant. -/
def GrafanaAPIType : String := "Grafana"

/-- `grafanaCloudRoleEntry`: a stored role.  Durations are held in seconds:
the Go code receives `ttl`/`max_ttl` as integer seconds and multiplies both
uniformly by `time.Second`, which preserves order and zero-ness, so the
second-valued model is order-isomorphic to the nanosecond-valued original. -/
structure grafanaCloudRoleEntry where
  APIType : String
  StackSlug : String
  GrafanaCloudRole : String
  TTL : Int
  MaxTTL : Int
deriving Repr, DecidableEq

/-- `&grafanaCloudRoleEntry{}`: the Go zero value. -/
def emptyRoleEntry : grafanaCloudRoleEntry :=
  { APIType := "", StackSlug := "", GrafanaCloudRole := "", TTL := 0, MaxTTL := 0 }

/-- `grafanaCloudValidRoles`: the single fixed set of acceptable `gc_role`
values (membership in the Go map). -/
def grafanaCloudValidRoles (r : String) : Bool :=
  r == "Viewer" || r == "Admin" || r == "Editor" ||
  r == "MetricsPublisher" || r == "PluginPublisher"

/-- `grafanaCloudValidAPITypes`: acceptable `api_type` values. -/
def grafanaCloudValidAPITypes (t : String) : Bool :=
  t == CloudAPIType || t == GrafanaAPIType

/-! ## Role writes (`pathRolesWrite`)

The handler's raw field data: `some v` means the field was present in the
request (`d.GetOk` returned `ok = true`), `none` that it was absent. -/

structure RoleFieldData where
  name : Option String
  gc_role : Option String
  api_type : Option String
  stack_slug : Option String
  ttl : Option Int
  max_ttl : Option Int
deriving Repr, DecidableEq

/-- Outcome of a role write:
  * `errResp m`  = `logical.ErrorResponse(m), nil` (user-facing rejection,
    nothing persisted);
  * `internalErr m` = `nil, NewInternalError(m, nil)` (system fault, nothing
    persisted);
  * `success r`  = the merged entry `r` was persisted via `setRole`
    (storage faults are not modelled: the host store is total here). -/
inductive RoleWriteResult where
  | errResp (msg : String)
  | internalErr (msg : String)
  | success (entry : grafanaCloudRoleEntry)
deriving Repr, DecidableEq

/-- Early-return plumbing for the sequential blocks of `pathRolesWrite`. -/
abbrev RoleStep := Except RoleWriteResult grafanaCloudRoleEntry

/-- The `api_type` block: merge the field if present (else default to
`CloudAPIType`, overwriting any stored value) and validate it. -/
def roleBlockAPIType (d : RoleFieldData) (r : grafanaCloudRoleEntry) : RoleStep :=
  match d.api_type with
  | some t =>
    let r := { r with APIType := t }
    if grafanaCloudValidAPITypes r.APIType then .ok r
    else .error (.errResp ("provided api_type " ++ r.APIType ++
      " is not valid. Valid values are " ++ CloudAPIType ++ " and " ++ GrafanaAPIType))
  | none => .ok { r with APIType := CloudAPIType }

/-- The `gc_role` block: merge the field if present and validate it against
the single `grafanaCloudValidRoles` set (no dependence on the API type). -/
def roleBlockGcRole (d : RoleFieldData) (r : grafanaCloudRoleEntry) : RoleStep :=
  match d.gc_role with
  | some g =>
    let r := { r with GrafanaCloudRole := g }
    if grafanaCloudValidRoles r.GrafanaCloudRole then .ok r
    else .error (.errResp ("provided gc_role " ++ r.GrafanaCloudRole ++ " is not valid"))
  | none => .ok r

/-- The `stack_slug` block: if present, store it and reject a Grafana-typed
entry whose slug is empty; if absent, reject any Grafana-typed entry. -/
def roleBlockStackSlug (d : RoleFieldData) (r : grafanaCloudRoleEntry) : RoleStep :=
  match d.stack_slug with
  | some s =>
    let r := { r with StackSlug := s }
    if r.APIType == GrafanaAPIType && r.StackSlug == "" then
      .error (.errResp "need to specify a stack_slug for Grafana API keys.")
    else .ok r
  | none =>
    if r.APIType == GrafanaAPIType then
      .error (.errResp "need to specify a stack_slug for Grafana API keys.")
    else .ok r

/-- The `if !ok && createOperation` line after the `stack_slug` block.
Go scoping note: the `ok` consulted there is the one bound together with
`name` at the very top of the handler — the `ok`s of the `api_type`,
`gc_role`, `stack_slug` and `ttl` blocks are each scoped to their own
if/else chain — so `nameOk` below is the presence flag of the `name` field. -/
def roleBlockMissingGcRole (nameOk createOperation : Bool) (r : grafanaCloudRoleEntry) : RoleStep :=
  if !nameOk && createOperation then .error (.internalErr "missing gc_role value")
  else .ok r

/-- The two TTL blocks: take the provided value, else on create take the
schema default (`0`), else keep the stored value. -/
def roleBlockTTLs (d : RoleFieldData) (createOperation : Bool)
    (r : grafanaCloudRoleEntry) : grafanaCloudRoleEntry :=
  let r := match d.ttl with
    | some v => { r with TTL := v }
    | none => if createOperation then { r with TTL := 0 } else r
  match d.max_ttl with
  | some v => { r with MaxTTL := v }
  | none => if createOperation then { r with MaxTTL := 0 } else r

/-- The final TTL validation before persisting. -/
def roleBlockCheckTTL (r : grafanaCloudRoleEntry) : RoleStep :=
  if r.MaxTTL != 0 && r.TTL > r.MaxTTL then
    .error (.errResp "ttl cannot be greater than max_ttl")
  else .ok r

/-- `pathRolesWrite`: `existing` is the stored role under the requested name
(`getRole`), `createOperation` is `req.Operation == logical.CreateOperation`. -/
def pathRolesWrite (existing : Option grafanaCloudRoleEntry) (createOperation : Bool)
    (d : RoleFieldData) : RoleWriteResult :=
  match d.name with
  | none => .errResp "missing role name"
  | some _ =>
    let r := existing.getD emptyRoleEntry
    match roleBlockAPIType d r with
    | .error res => res
    | .ok r =>
      match roleBlockGcRole d r with
      | .error res => res
      | .ok r =>
        match roleBlockStackSlug d r with
        | .error res => res
        | .ok r =>
          match roleBlockMissingGcRole d.name.isSome createOperation r with
          | .error res => res
          | .ok r =>
            match roleBlockCheckTTL (roleBlockTTLs d createOperation r) with
            | .error res => res
            | .ok r => .success r

/-- The effective (merged) TTL pair of a role write: the earlier blocks never
touch the TTL fields, so this is exactly the pair the final check sees. -/
def effectiveRoleTTLs (existing : Option grafanaCloudRoleEntry) (createOperation : Bool)
    (d : RoleFieldData) : Int × Int :=
  let r := roleBlockTTLs d createOperation (existing.getD emptyRoleEntry)
  (r.TTL, r.MaxTTL)

/-! ## The upstream platform as an oracle (grafanacloud_key.go)

The Grafana HTTP client library is an external dependency (spec §6 treats it
as black-box verbs).  Its per-request responses are supplied as an explicit
oracle `Upstream`; every model function also returns the exact sequence of
upstream calls it makes, so theorems can speak about which upstream
operations run, with which arguments, and in which order. -/

/-- `tempKeyPrefix = "vault-temp"` (the Go constant; renamed here only
because of a lexical restriction on identifier suffixes). -/
def tempKeyPfx : String := "vault-temp"

/-- `tempKeyTTL = time.Second * 30`, in seconds. -/
def tempKeyTTLSeconds : Nat := 30

/-- Response of `CreateCloudAPIKey` (library type `gapi.CloudAPIKey`). -/
structure CloudAPIKeyResp where
  name : String
  token : String
deriving Repr, DecidableEq

/-- Response of the scoped client's `CreateAPIKey`
(library type `gapi.CreateAPIKeyResponse`: numeric ID, name, key). -/
structure GrafanaAPIKeyResp where
  id : Int
  name : String
  key : String
deriving Repr, DecidableEq

/-- Modelled from the spec: the upstream black-box verbs of §6
(`createOrganisationKey`, `deleteOrganisationKey`,
`createInstanceScopedClient` with its cleanup handle, `createInstanceKey`,
`deleteInstanceKey`).  Each field is the outcome the remote platform would
give to that call in the scenario under consideration. -/
structure Upstream where
  createCloudResp : Except String CloudAPIKeyResp
  deleteCloudResp : Except String Unit
  acquireResp : Except String Unit
  createInstanceResp : Except String GrafanaAPIKeyResp
  deleteInstanceResp : Except String Unit
  cleanupResp : Except String Unit
deriving Repr

/-- One upstream call, with its arguments.  `cleanupTemp` records whether the
cleanup handle succeeded (its failure is only logged by the engine). -/
inductive UpstreamCall where
  | createCloudKey (org name role : String)
  | deleteCloudKey (org name : String)
  | createTempClient (stackSlug pfx : String) (ttlSeconds : Nat)
  | createInstanceKey (name role : String) (secondsToLive : Int)
  | deleteInstanceKey (id : Int)
  | cleanupTemp (succeeded : Bool)
deriving Repr, DecidableEq

/-- Whether an upstream outcome is a success (used only to record the cleanup
result in the call trace). -/
def exceptOk (e : Except String Unit) : Bool :=
  match e with
  | .ok _ => true
  | .error _ => false

/-- `GrafanaCloudKey` (grafanacloud_key.go): the issued-credential record. -/
structure GrafanaCloudKey where
  ID : String
  Name : String
  Token : String
  /-- The Go field is `Type`; renamed because `Type` is a Lean keyword. -/
  KeyType : String
  StackSlug : String
  User : String
  PrometheusUser : String
  PrometheusURL : String
  LokiUser : String
  LokiURL : String
  TempoUser : String
  TempoURL : String
  AlertmanagerUser : String
  AlertmanagerURL : String
  GraphiteUser : String
  GraphiteURL : String
deriving Repr, DecidableEq

/-- Decimal value of a nonempty all-digit character list (otherwise `none`). -/
def decDigitsVal? (l : List Char) : Option Nat :=
  match l with
  | [] => none
  | _ =>
    if l.all Char.isDigit then
      some (l.foldl (fun n c => n * 10 + (c.toNat - 48)) 0)
    else none

/-- Models Go `strconv.ParseInt(s, 10, 64)` with the returned error discarded
(as `keyRevoke` does): a non-numeric string parses to `0`.  The ids this
engine handles are far below the int64 range, so range clamping is not
modelled. -/
def parseIntOrZero (s : String) : Int :=
  match s.data with
  | [] => 0
  | c :: rest =>
    if c = '-' then
      match decDigitsVal? rest with
      | some n => -(n : Int)
      | none => 0
    else if c = '+' then
      match decDigitsVal? rest with
      | some n => (n : Int)
      | none => 0
    else
      match decDigitsVal? (c :: rest) with
      | some n => (n : Int)
      | none => 0

/-- The decimal digit character of `d` (meaningful for `d < 10`). -/
def decDigitChar (d : Nat) : Char := Char.ofNat (48 + d)

/-- Fuel-based decimal printer (structural recursion, so the kernel can
evaluate it on concrete inputs). -/
def natToDecAux : Nat → Nat → List Char → List Char
  | 0, _, acc => acc
  | fuel + 1, n, acc =>
    if n < 10 then decDigitChar n :: acc
    else natToDecAux fuel (n / 10) (decDigitChar (n % 10) :: acc)

/-- Decimal representation of a natural number. -/
def natToDecStr (n : Nat) : String := ⟨natToDecAux (n + 1) n []⟩

/-- Models Go `strconv.FormatInt(i, 10)` (used at issuance to stringify the
upstream numeric key id into the lease metadata). -/
def formatInt (i : Int) : String :=
  match i with
  | .ofNat n => natToDecStr n
  | .negSucc n => "-" ++ natToDecStr (n + 1)

/-- `createCloudKey`: issue an organisation-scoped key.  The random
`uuid.New().String()` suffix is an input (`suffix`); the function sends
`roleName_suffix` upstream and wraps the upstream response verbatim. -/
def createCloudKey (env : Upstream) (organisation roleName suffix : String)
    (config : grafanaCloudConfig) (grafanaCloudRole : String) :
    Except String GrafanaCloudKey × List UpstreamCall :=
  let tokenName := roleName ++ "_" ++ suffix
  let calls := [UpstreamCall.createCloudKey organisation tokenName grafanaCloudRole]
  match env.createCloudResp with
  | .error e => (.error ("error creating Grafana Cloud key: " ++ e), calls)
  | .ok key =>
    (.ok { ID := "", Name := key.name, Token := key.token, KeyType := CloudAPIType
           StackSlug := "", User := config.User
           PrometheusUser := config.PrometheusUser, PrometheusURL := config.PrometheusURL
           LokiUser := config.LokiUser, LokiURL := config.LokiURL
           TempoUser := config.TempoUser, TempoURL := config.TempoURL
           AlertmanagerUser := config.AlertmanagerUser, AlertmanagerURL := config.AlertmanagerURL
           GraphiteUser := config.GraphiteUser, GraphiteURL := config.GraphiteURL }, calls)

/-- `createGrafanaKey`: issue an instance-scoped key through the scoped-client
protocol.  The temporary scoped client is acquired first; the `defer`red
cleanup handle then runs after the privileged create on every return path,
its own failure being logged only (recorded in the trace, never in the
result). -/
def createGrafanaKey (env : Upstream) (stackSlug roleName suffix : String)
    (secondsToLive : Int) (config : grafanaCloudConfig) (grafanaCloudRole : String) :
    Except String GrafanaCloudKey × List UpstreamCall :=
  let tokenName := roleName ++ "_" ++ suffix
  match env.acquireResp with
  | .error e =>
    (.error ("error creating temporary Grafana API key: " ++ e),
     [UpstreamCall.createTempClient stackSlug tempKeyPfx tempKeyTTLSeconds])
  | .ok _ =>
    let calls := [UpstreamCall.createTempClient stackSlug tempKeyPfx tempKeyTTLSeconds,
                  UpstreamCall.createInstanceKey tokenName grafanaCloudRole secondsToLive,
                  UpstreamCall.cleanupTemp (exceptOk env.cleanupResp)]
    match env.createInstanceResp with
    | .error e => (.error ("error creating Grafana API key: " ++ e), calls)
    | .ok key =>
      (.ok { ID := formatInt key.id, Name := key.name, Token := key.key
             KeyType := GrafanaAPIType, StackSlug := stackSlug, User := config.User
             PrometheusUser := config.PrometheusUser, PrometheusURL := config.PrometheusURL
             LokiUser := config.LokiUser, LokiURL := config.LokiURL
             TempoUser := config.TempoUser, TempoURL := config.TempoURL
             AlertmanagerUser := config.AlertmanagerUser, AlertmanagerURL := config.AlertmanagerURL
             GraphiteUser := config.GraphiteUser, GraphiteURL := config.GraphiteURL }, calls)

/-- `deleteGrafanaAPIKey`: delete an instance-scoped key by numeric id
through the scoped-client protocol.  A failed `DeleteAPIKey` error is
returned unwrapped; the deferred cleanup runs on every path after the
delete, failure logged only. -/
def deleteGrafanaAPIKey (env : Upstream) (stackSlug : String) (tokenID : Int) :
    Except String Unit × List UpstreamCall :=
  match env.acquireResp with
  | .error e =>
    (.error ("error creating temporary Grafana API key: " ++ e),
     [UpstreamCall.createTempClient stackSlug tempKeyPfx tempKeyTTLSeconds])
  | .ok _ =>
    let calls := [UpstreamCall.createTempClient stackSlug tempKeyPfx tempKeyTTLSeconds,
                  UpstreamCall.deleteInstanceKey tokenID,
                  UpstreamCall.cleanupTemp (exceptOk env.cleanupResp)]
    match env.deleteInstanceResp with
    | .error e => (.error e, calls)
    | .ok _ => (.ok (), calls)

/-! ## Revocation (`keyRevoke`) and lease metadata -/

/-- `req.Secret.InternalData`: each key of the Go map is present (`some`) or
absent (`none`).  A bare type assertion `InternalData[k].(string)` on an
absent key panics; the `type` key is read with the comma-ok form. -/
structure SecretInternalData where
  name : Option String
  type? : Option String
  id : Option String
  stack_slug : Option String
deriving Repr, DecidableEq

/-- The internal (lease-metadata) payload recorded at issuance
(path_credentials.go, `createUserCreds`): always `id`, `name`, `type`;
`stack_slug` only when non-empty. -/
def credsInternalData (key : GrafanaCloudKey) : SecretInternalData :=
  { name := some key.Name, type? := some key.KeyType, id := some key.ID
    stack_slug := if key.StackSlug != "" then some key.StackSlug else none }

/-- Outcome of a Go handler, with nil-pointer dereference / failed type
assertion modelled as `panics`. -/
inductive GoOutcome (α : Type) where
  | ok (a : α)
  | err (msg : String)
  | panics
deriving Repr, DecidableEq

/-- `getConfig`: the host storage either holds a decoded configuration or no
entry at all (storage faults and JSON decode faults are not modelled: the
embedded store is typed).  An absent entry yields `ok none` — a nil
configuration pointer with a nil error. -/
def getConfig (storage : Option grafanaCloudConfig) :
    Except String (Option grafanaCloudConfig) :=
  .ok storage

/-- `keyRevoke`: branch on the `type` recorded in the lease metadata.
`config.Organisation` is read without a nil check, so a missing
configuration panics; `name` (and on the instance branch `id` and
`stack_slug`) are read with bare type assertions, which panic when absent.
`getClient` is not materially modelled here: with the typed store its
slow path cannot fail (see `getClient` below). -/
def keyRevoke (storage : Option grafanaCloudConfig)
    (internal : SecretInternalData) (env : Upstream) :
    GoOutcome Unit × List UpstreamCall :=
  match getConfig storage with
  | .error e => (.err e, [])
  | .ok none => (.panics, [])
  | .ok (some config) =>
    let org := config.Organisation
    match internal.name with
    | none => (.panics, [])
    | some tokenName =>
      let found := internal.type?.isSome
      let apiType := internal.type?.getD ""
      if !found || apiType == "Cloud" then
        match env.deleteCloudResp with
        | .error e => (.err e, [UpstreamCall.deleteCloudKey org tokenName])
        | .ok _ => (.ok (), [UpstreamCall.deleteCloudKey org tokenName])
      else
        match internal.id with
        | none => (.panics, [])
        | some tokenID =>
          match internal.stack_slug with
          | none => (.panics, [])
          | some stackSlug =>
            let id := parseIntOrZero tokenID
            match deleteGrafanaAPIKey env stackSlug id with
            | (.error e, calls) => (.err e, calls)
            | (.ok _, calls) => (.ok (), calls)

/-- `pathConfigRead`: builds its response by reading every field of the
configuration returned by `getConfig` with no nil check, so it panics when
no configuration is stored.  The response data is exactly the field set of
the configuration, so it is returned whole. -/
def pathConfigRead (storage : Option grafanaCloudConfig) :
    GoOutcome grafanaCloudConfig :=
  match getConfig storage with
  | .error e => .err e
  | .ok none => .panics
  | .ok (some config) => .ok config

/-! ## The upstream client cache (`getClient`, `reset`) and the config path -/

/-- Go `strings.ToLower`, modelled at the character level (the engine only
ever lower-cases URLs, where per-character lowering agrees with Go). -/
def toLowerStr (s : String) : String := ⟨s.data.map Char.toLower⟩

/-- Go `strings.HasSuffix`, modelled at the character level. -/
def hasSuffixStr (s suf : String) : Bool := suf.data.isSuffixOf s.data

/-- Go `strings.TrimSuffix`, modelled at the character level. -/
def trimSuffix (s suf : String) : String :=
  if hasSuffixStr s suf then ⟨s.data.take (s.data.length - suf.data.length)⟩ else s

/-- The base-URL normalization inside `getClient`: lower-case the configured
URL, then strip a trailing `"api"` suffix, else a trailing `"api/"` suffix
(`apiSuffix = "api"`). -/
def normalizeBaseURL (url : String) : String :=
  let apiSuffix := "api"
  let baseUrl := toLowerStr url
  if hasSuffixStr baseUrl apiSuffix then trimSuffix baseUrl apiSuffix
  else if hasSuffixStr baseUrl (apiSuffix ++ "/") then trimSuffix baseUrl (apiSuffix ++ "/")
  else baseUrl

/-- The cached client built by `grafanaclient.New(baseUrl, Config{APIKey})`.
The library is external; the model keeps exactly what the engine passes to
it, plus an allocation number `id` so that *reference identity* (two Gets
returning the same in-memory instance) is expressible: each construction
gets a fresh `id`. -/
structure CachedClient where
  id : Nat
  baseURL : String
  apiKey : String
deriving Repr, DecidableEq

/-- The backend's shared mutable state: the stored configuration (host
storage under key `config`), the cached client (`b.client`), and the
allocation counter for reference identity.  The reader/writer lock is not
modelled: claims here are about the sequential protocol. -/
structure BackendState where
  config : Option grafanaCloudConfig
  client : Option CachedClient
  nextId : Nat
deriving Repr, DecidableEq

/-- `getClient`: fast path returns the cached client unchanged; slow path
re-loads the configuration (an absent configuration is replaced by the
all-empty one), normalizes the base URL, constructs a client bound to
`{normalized URL, Key}`, caches it and returns it.  `grafanaclient.New`
cannot fail on the values this engine passes it, so construction is total
in the model. -/
def getClient (s : BackendState) : CachedClient × BackendState :=
  match s.client with
  | some c => (c, s)
  | none =>
    let config := s.config.getD emptyConfig
    let c : CachedClient :=
      { id := s.nextId, baseURL := normalizeBaseURL config.URL, apiKey := config.Key }
    (c, { s with client := some c, nextId := s.nextId + 1 })

/-- `reset`: clear the cached client. -/
def reset (s : BackendState) : BackendState := { s with client := none }

/-- `pathConfigDelete`: remove the stored configuration; the storage delete
succeeds in the typed model, so `reset` always runs. -/
def pathConfigDelete (s : BackendState) : BackendState :=
  reset { s with config := none }

/-- The raw field data of a config write (`some` = present in the request). -/
structure ConfigFieldData where
  organisation : Option String
  key : Option String
  url : Option String
  user : Option String
  prometheus_user : Option String
  prometheus_url : Option String
  loki_user : Option String
  loki_url : Option String
  tempo_user : Option String
  tempo_url : Option String
  alertmanager_user : Option String
  alertmanager_url : Option String
  graphite_user : Option String
  graphite_url : Option String
deriving Repr, DecidableEq

/-- Modelled from Go `net/url`: `ParseRequestURI(u)` succeeding with
`u.IsAbs()` means the string carries a URL scheme (nonempty, starting with a
letter, made of letters/digits/`+`/`-`/`.`) before a `:`.  Control-character
rejection and the finer grammar of `net/url` are outside the claims. -/
def urlIsValidAbs (s : String) : Bool :=
  let l := s.data
  let scheme := l.takeWhile (fun c => c != ':')
  match scheme with
  | [] => false
  | c :: rest =>
    c.isAlpha &&
    rest.all (fun ch => ch.isAlpha || ch.isDigit || ch == '+' || ch == '-' || ch == '.') &&
    decide (scheme.length < l.length)

/-- The merge-and-validate body of `pathConfigWrite` (the sequence of
`GetOk` blocks between loading the existing configuration and the storage
`Put`), with each early `return nil, err` as a `throw`. -/
def pathConfigWriteMerge (c0 : grafanaCloudConfig) (createOperation : Bool)
    (d : ConfigFieldData) : Except String grafanaCloudConfig := do
  let mut config := c0
  if let some v := d.organisation then config := { config with Organisation := v }
  if config.Organisation == "" && createOperation then
    throw "missing organisation in configuration"
  if let some v := d.key then config := { config with Key := v }
  if config.Key == "" && createOperation then
    throw "missing key in configuration"
  match d.url with
  | some v =>
    config := { config with URL := v }
    if !urlIsValidAbs config.URL then throw "invalid url in configuration"
  | none =>
    if createOperation then throw "missing url in configuration"
  if let some v := d.user then config := { config with User := v }
  -- Setting prometheus_user also sets User, for backwards compatibility.
  if let some v := d.prometheus_user then
    config := { config with PrometheusUser := v, User := v }
  if let some v := d.loki_user then config := { config with LokiUser := v }
  if let some v := d.tempo_user then config := { config with TempoUser := v }
  if let some v := d.alertmanager_user then config := { config with AlertmanagerUser := v }
  if let some v := d.graphite_user then config := { config with GraphiteUser := v }
  match d.prometheus_url with
  | some v =>
    config := { config with PrometheusURL := v }
    if !urlIsValidAbs config.PrometheusURL then throw "invalid prometheus_url in configuration"
  | none => pure ()
  match d.loki_url with
  | some v =>
    config := { config with LokiURL := v }
    if !urlIsValidAbs config.LokiURL then throw "invalid loki_url in configuration"
  | none => pure ()
  match d.tempo_url with
  | some v =>
    config := { config with TempoURL := v }
    if !urlIsValidAbs config.TempoURL then throw "invalid tempo_url in configuration"
  | none => pure ()
  match d.alertmanager_url with
  | some v =>
    config := { config with AlertmanagerURL := v }
    if !urlIsValidAbs config.AlertmanagerURL then throw "invalid alertmanager_url in configuration"
  | none => pure ()
  match d.graphite_url with
  | some v =>
    config := { config with GraphiteURL := v }
    if !urlIsValidAbs config.GraphiteURL then throw "invalid graphite_url in configuration"
  | none => pure ()
  return config

/-- Outcome of a config write. -/
inductive ConfigWriteResult where
  | err (msg : String)
  | success
deriving Repr, DecidableEq

/-- `pathConfigWrite`: load the stored configuration (update on a missing
configuration is an error; create starts from the zero value), merge and
validate the fields, then `Put` the merged configuration and `reset` the
client cache.  Every failing path returns before the `Put`, leaving the
state untouched. -/
def pathConfigWrite (s : BackendState) (createOperation : Bool)
    (d : ConfigFieldData) : ConfigWriteResult × BackendState :=
  match s.config, createOperation with
  | none, false => (.err "config not found during update operation", s)
  | _, _ =>
    let c0 := s.config.getD emptyConfig
    match pathConfigWriteMerge c0 createOperation d with
    | .error m => (.err m, s)
    | .ok cfg => (.success, reset { s with config := some cfg })

/-! ## Helper lemmas about the role-write blocks -/

theorem roleBlockAPIType_error_shape {d : RoleFieldData} {r : grafanaCloudRoleEntry}
    {res : RoleWriteResult} (h : roleBlockAPIType d r = .error res) :
    ∃ m, res = .errResp m := by
  unfold roleBlockAPIType at h
  split at h
  · dsimp only at h
    split at h
    · simp at h
    · exact ⟨_, (Except.error.inj h).symm⟩
  · simp at h

theorem roleBlockGcRole_error_shape {d : RoleFieldData} {r : grafanaCloudRoleEntry}
    {res : RoleWriteResult} (h : roleBlockGcRole d r = .error res) :
    ∃ m, res = .errResp m := by
  unfold roleBlockGcRole at h
  split at h
  · dsimp only at h
    split at h
    · simp at h
    · exact ⟨_, (Except.error.inj h).symm⟩
  · simp at h

theorem roleBlockStackSlug_error_shape {d : RoleFieldData} {r : grafanaCloudRoleEntry}
    {res : RoleWriteResult} (h : roleBlockStackSlug d r = .error res) :
    ∃ m, res = .errResp m := by
  unfold roleBlockStackSlug at h
  split at h
  · dsimp only at h
    split at h
    · exact ⟨_, (Except.error.inj h).symm⟩
    · simp at h
  · split at h
    · exact ⟨_, (Except.error.inj h).symm⟩
    · simp at h

theorem roleBlockCheckTTL_error_shape {r : grafanaCloudRoleEntry}
    {res : RoleWriteResult} (h : roleBlockCheckTTL r = .error res) :
    ∃ m, res = .errResp m := by
  unfold roleBlockCheckTTL at h
  split at h
  · exact ⟨_, (Except.error.inj h).symm⟩
  · simp at h

/-- With the `name` field present, the dead `!ok && createOperation` check
always passes. -/
theorem roleBlockMissingGcRole_nameOk (c : Bool) (r : grafanaCloudRoleEntry) :
    roleBlockMissingGcRole true c r = .ok r := by
  unfold roleBlockMissingGcRole
  simp

theorem roleBlockMissingGcRole_ok_inv {nk c : Bool} {r r' : grafanaCloudRoleEntry}
    (h : roleBlockMissingGcRole nk c r = .ok r') : r' = r := by
  unfold roleBlockMissingGcRole at h
  split at h
  · simp at h
  · exact (Except.ok.inj h).symm

/-- Every result of `pathRolesWrite` is a user-facing error response or a
persisted entry: the internal-error path after the `stack_slug` block tests
the presence flag of `name`, which is necessarily true there, so it is dead. -/
theorem pathRolesWrite_shape (e : Option grafanaCloudRoleEntry) (c : Bool)
    (d : RoleFieldData) :
    (∃ m, pathRolesWrite e c d = .errResp m) ∨
    (∃ r, pathRolesWrite e c d = .success r) := by
  rcases hres : pathRolesWrite e c d with m | m | r
  · exact .inl ⟨m, rfl⟩
  · exfalso
    unfold pathRolesWrite at hres
    split at hres
    · simp at hres
    next n hn =>
      dsimp only at hres
      split at hres
      next res h1 =>
        obtain ⟨m', rfl⟩ := roleBlockAPIType_error_shape h1
        simp at hres
      next r1 h1 =>
        split at hres
        next res h2 =>
          obtain ⟨m', rfl⟩ := roleBlockGcRole_error_shape h2
          simp at hres
        next r2 h2 =>
          split at hres
          next res h3 =>
            obtain ⟨m', rfl⟩ := roleBlockStackSlug_error_shape h3
            simp at hres
          next r3 h3 =>
            split at hres
            next res h4 =>
              rw [hn] at h4
              simp only [Option.isSome_some] at h4
              rw [roleBlockMissingGcRole_nameOk] at h4
              simp at h4
            next r4 h4 =>
              split at hres
              next res h5 =>
                obtain ⟨m', rfl⟩ := roleBlockCheckTTL_error_shape h5
                simp at hres
              next r5 h5 => simp at hres
  · exact .inr ⟨r, rfl⟩

/-- Inversion of a successful role write into its sequential blocks. -/
theorem pathRolesWrite_success_inv {e : Option grafanaCloudRoleEntry} {c : Bool}
    {d : RoleFieldData} {r : grafanaCloudRoleEntry}
    (h : pathRolesWrite e c d = .success r) :
    ∃ n r1 r2 r3, d.name = some n ∧
      roleBlockAPIType d (e.getD emptyRoleEntry) = .ok r1 ∧
      roleBlockGcRole d r1 = .ok r2 ∧
      roleBlockStackSlug d r2 = .ok r3 ∧
      roleBlockCheckTTL (roleBlockTTLs d c r3) = .ok r := by
  unfold pathRolesWrite at h
  split at h
  · simp at h
  next n hn =>
    dsimp only at h
    split at h
    next res h1 =>
      obtain ⟨m', rfl⟩ := roleBlockAPIType_error_shape h1
      simp at h
    next r1 h1 =>
      split at h
      next res h2 =>
        obtain ⟨m', rfl⟩ := roleBlockGcRole_error_shape h2
        simp at h
      next r2 h2 =>
        split at h
        next res h3 =>
          obtain ⟨m', rfl⟩ := roleBlockStackSlug_error_shape h3
          simp at h
        next r3 h3 =>
          split at h
          next res h4 =>
            rw [hn] at h4
            simp only [Option.isSome_some] at h4
            rw [roleBlockMissingGcRole_nameOk] at h4
            simp at h4
          next r4 h4 =>
            have hr43 : r4 = r3 := roleBlockMissingGcRole_ok_inv h4
            subst hr43
            split at h
            next res h5 =>
              obtain ⟨m', rfl⟩ := roleBlockCheckTTL_error_shape h5
              simp at h
            next r5 h5 =>
              have hr5 : r5 = r := RoleWriteResult.success.inj h
              subst hr5
              exact ⟨n, r1, r2, r4, hn, h1, h2, h3, h5⟩

theorem roleBlockCheckTTL_ok_inv {r r' : grafanaCloudRoleEntry}
    (h : roleBlockCheckTTL r = .ok r') :
    r' = r ∧ (r.MaxTTL = 0 ∨ r.TTL ≤ r.MaxTTL) := by
  unfold roleBlockCheckTTL at h
  split at h
  · simp at h
  · next hcond =>
    refine ⟨(Except.ok.inj h).symm, ?_⟩
    rcases eq_or_ne r.MaxTTL 0 with hm | hm
    · exact .inl hm
    · right
      by_contra hgt
      exact hcond (by
        simp only [Bool.and_eq_true, bne_iff_ne, ne_eq, decide_eq_true_eq]
        exact ⟨hm, by omega⟩)

theorem roleBlockCheckTTL_error_inv {r : grafanaCloudRoleEntry} {res : RoleWriteResult}
    (h : roleBlockCheckTTL r = .error res) :
    res = .errResp "ttl cannot be greater than max_ttl" ∧ r.MaxTTL ≠ 0 ∧ r.MaxTTL < r.TTL := by
  unfold roleBlockCheckTTL at h
  split at h
  · next hcond =>
    simp only [Bool.and_eq_true, bne_iff_ne, ne_eq, decide_eq_true_eq] at hcond
    exact ⟨(Except.error.inj h).symm, hcond.1, hcond.2⟩
  · simp at h

/-- On the `ok` path, the `api_type` block sets exactly the `APIType` field. -/
theorem roleBlockAPIType_ok_eq {d : RoleFieldData} {r r1 : grafanaCloudRoleEntry}
    (h : roleBlockAPIType d r = .ok r1) :
    r1 = { r with APIType := d.api_type.getD CloudAPIType } := by
  unfold roleBlockAPIType at h
  split at h
  next t heq =>
    dsimp only at h
    split at h
    · rw [heq]
      exact (Except.ok.inj h).symm
    · simp at h
  next heq =>
    rw [heq]
    exact (Except.ok.inj h).symm

/-- On the `ok` path, the `gc_role` block sets exactly `GrafanaCloudRole`. -/
theorem roleBlockGcRole_ok_eq {d : RoleFieldData} {r r1 : grafanaCloudRoleEntry}
    (h : roleBlockGcRole d r = .ok r1) :
    r1 = { r with GrafanaCloudRole := d.gc_role.getD r.GrafanaCloudRole } := by
  unfold roleBlockGcRole at h
  split at h
  next g heq =>
    dsimp only at h
    split at h
    · rw [heq]
      exact (Except.ok.inj h).symm
    · simp at h
  next heq =>
    rw [heq]
    exact (Except.ok.inj h).symm

/-- On the `ok` path, a provided `gc_role` value lies in the single valid set. -/
theorem roleBlockGcRole_ok_valid {d : RoleFieldData} {r r1 : grafanaCloudRoleEntry}
    (h : roleBlockGcRole d r = .ok r1) {g : String} (hg : d.gc_role = some g) :
    grafanaCloudValidRoles g = true := by
  unfold roleBlockGcRole at h
  split at h
  next g' heq =>
    rw [hg] at heq
    cases Option.some.inj heq
    dsimp only at h
    split at h
    next hvalid => exact hvalid
    · simp at h
  next heq =>
    rw [hg] at heq
    simp at heq

/-- On the `ok` path, the `stack_slug` block sets exactly `StackSlug`. -/
theorem roleBlockStackSlug_ok_eq {d : RoleFieldData} {r r1 : grafanaCloudRoleEntry}
    (h : roleBlockStackSlug d r = .ok r1) :
    r1 = { r with StackSlug := d.stack_slug.getD r.StackSlug } := by
  unfold roleBlockStackSlug at h
  split at h
  next sl heq =>
    dsimp only at h
    split at h
    · simp at h
    · rw [heq]
      exact (Except.ok.inj h).symm
  next heq =>
    split at h
    · simp at h
    · rw [heq]
      exact (Except.ok.inj h).symm

/-- A Grafana-typed entry whose request lacks `stack_slug` (or provides it
empty) is rejected by the `stack_slug` block. -/
theorem roleBlockStackSlug_grafana_missing {d : RoleFieldData} {r : grafanaCloudRoleEntry}
    (hAPI : r.APIType = GrafanaAPIType)
    (hs : d.stack_slug = none ∨ d.stack_slug = some "") :
    roleBlockStackSlug d r = .error (.errResp "need to specify a stack_slug for Grafana API keys.") := by
  unfold roleBlockStackSlug
  rcases hs with hs | hs <;> rw [hs] <;> simp [hAPI]

/-- The two TTL blocks as a record update. -/
theorem roleBlockTTLs_eq (d : RoleFieldData) (c : Bool) (r : grafanaCloudRoleEntry) :
    roleBlockTTLs d c r =
      { r with TTL := match d.ttl with | some v => v | none => if c then 0 else r.TTL
               MaxTTL := match d.max_ttl with | some v => v | none => if c then 0 else r.MaxTTL } := by
  unfold roleBlockTTLs
  cases hd : d.ttl <;> cases hm : d.max_ttl <;> cases c <;> rfl

/-- A successful write persists exactly the block-merged entry; in
particular its TTL pair is the effective pair and its non-TTL fields are
the block-merged ones. -/
theorem pathRolesWrite_success_fields {e : Option grafanaCloudRoleEntry} {c : Bool}
    {d : RoleFieldData} {r : grafanaCloudRoleEntry}
    (h : pathRolesWrite e c d = .success r) :
    r.APIType = d.api_type.getD CloudAPIType ∧
    r.GrafanaCloudRole = d.gc_role.getD (e.getD emptyRoleEntry).GrafanaCloudRole ∧
    r.StackSlug = d.stack_slug.getD (e.getD emptyRoleEntry).StackSlug ∧
    (r.TTL, r.MaxTTL) = effectiveRoleTTLs e c d := by
  obtain ⟨n, r1, r2, r3, hn, h1, h2, h3, h4⟩ := pathRolesWrite_success_inv h
  have e1 := roleBlockAPIType_ok_eq h1
  subst e1
  have e2 := roleBlockGcRole_ok_eq h2
  subst e2
  have e3 := roleBlockStackSlug_ok_eq h3
  subst e3
  obtain ⟨hr, -⟩ := roleBlockCheckTTL_ok_inv h4
  subst hr
  rw [roleBlockTTLs_eq]
  unfold effectiveRoleTTLs
  rw [roleBlockTTLs_eq]
  simp

/-! ## String-prefix helpers for distinguishing error messages -/

theorem head?_append_left (s t : String) (h : s.data ≠ []) :
    (s ++ t).data.head? = s.data.head? := by
  rw [String.data_append]
  cases hs : s.data with
  | nil => exact absurd hs h
  | cons a l => simp

theorem append_data_ne_nil (s t : String) (h : s.data ≠ []) : (s ++ t).data ≠ [] := by
  rw [String.data_append]
  intro e
  exact h (List.append_eq_nil.mp e).1

theorem apiTypeMsg_head (t : String) :
    ("provided api_type " ++ t ++ " is not valid. Valid values are " ++ CloudAPIType ++
      " and " ++ GrafanaAPIType).data.head? = some 'p' := by
  have n0 : ("provided api_type " : String).data ≠ [] := by decide
  have n1 := append_data_ne_nil "provided api_type " t n0
  have n2 := append_data_ne_nil _ " is not valid. Valid values are " n1
  have n3 := append_data_ne_nil _ CloudAPIType n2
  have n4 := append_data_ne_nil _ " and " n3
  rw [head?_append_left _ _ n4, head?_append_left _ _ n3, head?_append_left _ _ n2,
      head?_append_left _ _ n1, head?_append_left _ _ n0]
  decide

theorem gcRoleMsg_head (g : String) :
    ("provided gc_role " ++ g ++ " is not valid").data.head? = some 'p' := by
  have n0 : ("provided gc_role " : String).data ≠ [] := by decide
  have n1 := append_data_ne_nil "provided gc_role " g n0
  rw [head?_append_left _ _ n1, head?_append_left _ _ n0]
  decide

/-- Strings whose first characters differ are different. -/
theorem string_ne_of_head_ne {s t : String} (h : s.data.head? ≠ t.data.head?) : s ≠ t :=
  fun e => h (congrArg (fun u => u.data.head?) e)

/-! ## Error-message inversions for the validating blocks -/

theorem roleBlockAPIType_error_inv {d : RoleFieldData} {r : grafanaCloudRoleEntry}
    {res : RoleWriteResult} (h : roleBlockAPIType d r = .error res) :
    ∃ t, d.api_type = some t ∧
      res = .errResp ("provided api_type " ++ t ++ " is not valid. Valid values are " ++
        CloudAPIType ++ " and " ++ GrafanaAPIType) := by
  unfold roleBlockAPIType at h
  split at h
  next t heq =>
    dsimp only at h
    split at h
    · simp at h
    · exact ⟨t, heq, (Except.error.inj h).symm⟩
  · simp at h

theorem roleBlockGcRole_error_inv {d : RoleFieldData} {r : grafanaCloudRoleEntry}
    {res : RoleWriteResult} (h : roleBlockGcRole d r = .error res) :
    ∃ g, d.gc_role = some g ∧
      res = .errResp ("provided gc_role " ++ g ++ " is not valid") := by
  unfold roleBlockGcRole at h
  split at h
  next g heq =>
    dsimp only at h
    split at h
    · simp at h
    · exact ⟨g, heq, (Except.error.inj h).symm⟩
  · simp at h

theorem roleBlockStackSlug_error_msg {d : RoleFieldData} {r : grafanaCloudRoleEntry}
    {res : RoleWriteResult} (h : roleBlockStackSlug d r = .error res) :
    res = .errResp "need to specify a stack_slug for Grafana API keys." := by
  unfold roleBlockStackSlug at h
  split at h
  · dsimp only at h
    split at h
    · exact (Except.error.inj h).symm
    · simp at h
  · split at h
    · exact (Except.error.inj h).symm
    · simp at h

/-! ## Claim C3 -/

/-- Concrete role-write data violating the TTL bound (used by the C3 witness). -/
def c3ViolRoleData : RoleFieldData :=
  { name := some "r", gc_role := some "Viewer", api_type := none, stack_slug := none
    ttl := some 400, max_ttl := some 300 }

/-- Claim C3: for every role write, if the effective (merged) role has
`MaxTTL ≠ 0` and `TTL > MaxTTL`, the write is rejected with a user-facing
error response and nothing is persisted (never a success); every role write
whose effective `MaxTTL` is `0` or whose `TTL ≤ MaxTTL` passes this check
(is never rejected with the TTL message); and every persisted entry
satisfies the bound. -/
theorem claim_C3 :
    (∀ e c d r, pathRolesWrite e c d = .success r →
        r.MaxTTL = 0 ∨ r.TTL ≤ r.MaxTTL) ∧
    (∀ e c d, ((effectiveRoleTTLs e c d).2 = 0 ∨
        (effectiveRoleTTLs e c d).1 ≤ (effectiveRoleTTLs e c d).2) →
        pathRolesWrite e c d ≠ .errResp "ttl cannot be greater than max_ttl") ∧
    (∀ e c d, (effectiveRoleTTLs e c d).2 ≠ 0 →
        (effectiveRoleTTLs e c d).2 < (effectiveRoleTTLs e c d).1 →
        ∃ m, pathRolesWrite e c d = .errResp m) := by
  refine ⟨?_, ?_, ?_⟩
  · intro e c d r h
    obtain ⟨n, r1, r2, r3, hn, h1, h2, h3, h4⟩ := pathRolesWrite_success_inv h
    obtain ⟨hr, hinv⟩ := roleBlockCheckTTL_ok_inv h4
    rw [← hr] at hinv
    exact hinv
  · intro e c d hok hcontra
    unfold pathRolesWrite at hcontra
    split at hcontra
    · exact absurd (RoleWriteResult.errResp.inj hcontra) (by decide)
    next n hn =>
      dsimp only at hcontra
      split at hcontra
      next res h1 =>
        obtain ⟨t, -, rfl⟩ := roleBlockAPIType_error_inv h1
        exact string_ne_of_head_ne
          (by rw [apiTypeMsg_head]; decide) (RoleWriteResult.errResp.inj hcontra)
      next r1 h1 =>
        split at hcontra
        next res h2 =>
          obtain ⟨g, -, rfl⟩ := roleBlockGcRole_error_inv h2
          exact string_ne_of_head_ne
            (by rw [gcRoleMsg_head]; decide) (RoleWriteResult.errResp.inj hcontra)
        next r2 h2 =>
          split at hcontra
          next res h3 =>
            rw [roleBlockStackSlug_error_msg h3] at hcontra
            exact absurd (RoleWriteResult.errResp.inj hcontra) (by decide)
          next r3 h3 =>
            split at hcontra
            next res h4 =>
              rw [hn] at h4
              simp only [Option.isSome_some] at h4
              rw [roleBlockMissingGcRole_nameOk] at h4
              simp at h4
            next r4 h4 =>
              split at hcontra
              next res h5 =>
                obtain ⟨-, hmz, hlt⟩ := roleBlockCheckTTL_error_inv h5
                -- relate the checked entry's TTL pair to the effective pair
                have e1 := roleBlockAPIType_ok_eq h1
                subst e1
                have e2 := roleBlockGcRole_ok_eq h2
                subst e2
                have e3 := roleBlockStackSlug_ok_eq h3
                subst e3
                have e4 := roleBlockMissingGcRole_ok_inv h4
                subst e4
                rw [roleBlockTTLs_eq] at hmz hlt
                unfold effectiveRoleTTLs at hok
                rw [roleBlockTTLs_eq] at hok
                simp only at hmz hlt hok
                rcases hok with hok | hok
                · exact hmz hok
                · omega
              next r5 h5 => simp at hcontra
  · intro e c d hmz hlt
    rcases pathRolesWrite_shape e c d with ⟨m, hm⟩ | ⟨r, hr⟩
    · exact ⟨m, hm⟩
    · exfalso
      have hfields := (pathRolesWrite_success_fields hr).2.2.2
      obtain ⟨n, r1, r2, r3, hn, h1, h2, h3, h4⟩ := pathRolesWrite_success_inv hr
      obtain ⟨hre, hinv⟩ := roleBlockCheckTTL_ok_inv h4
      rw [← hre] at hinv
      have h1' : r.TTL = (effectiveRoleTTLs e c d).1 := by rw [← hfields]
      have h2' : r.MaxTTL = (effectiveRoleTTLs e c d).2 := by rw [← hfields]
      rcases hinv with hz | hle
      · exact hmz (by rw [← h2', hz])
      · rw [h1', h2'] at hle
        omega

/-- Witness for C3 at concrete data: `ttl = 400 > max_ttl = 300` is rejected
with a user-facing error. -/
theorem claim_C3_witness :
    (effectiveRoleTTLs none true c3ViolRoleData).2 ≠ 0 ∧
    (effectiveRoleTTLs none true c3ViolRoleData).2 < (effectiveRoleTTLs none true c3ViolRoleData).1 ∧
    (∃ m, pathRolesWrite none true c3ViolRoleData = .errResp m) :=
  ⟨by decide, by decide, claim_C3.2.2 none true c3ViolRoleData (by decide) (by decide)⟩

/-! ## Claim C4 -/

/-- Concrete data for the C4 counterexample: an OrganisationScoped (Cloud)
role write that *provides* `stack_slug`. -/
def c4CloudSlugData : RoleFieldData :=
  { name := some "r1", gc_role := some "Viewer", api_type := some "Cloud"
    stack_slug := some "mystack", ttl := none, max_ttl := none }

/-- Counterexample to C4 as stated: a role write with effective kind
OrganisationScoped (`api_type = "Cloud"`) and `stack_slug = "mystack"`
succeeds and the persisted role entry carries `StackSlug = "mystack"` — the
field is stored verbatim, not ignored/absent. -/
theorem claim_C4_counterexample :
    pathRolesWrite none true c4CloudSlugData =
      .success { APIType := "Cloud", StackSlug := "mystack"
                 GrafanaCloudRole := "Viewer", TTL := 0, MaxTTL := 0 } ∧
    ("mystack" : String) ≠ "" := by
  constructor
  · decide
  · decide

/-- Claim C4 (amended): every role write whose effective kind is
InstanceScoped (`api_type = "Grafana"`) with `stack_slug` missing or
provided empty is rejected with a user-facing error (never persisted);
and for a write whose effective kind is OrganisationScoped the provided
`stack_slug` is stored verbatim in the role entry (an absent `stack_slug`
preserves the stored value) — it is not cleared or ignored in storage. -/
theorem claim_C4 :
    (∀ e c d, d.api_type = some GrafanaAPIType →
        (d.stack_slug = none ∨ d.stack_slug = some "") →
        ∃ m, pathRolesWrite e c d = .errResp m) ∧
    (∀ e c d r, (d.api_type = some CloudAPIType ∨ d.api_type = none) →
        pathRolesWrite e c d = .success r →
        r.StackSlug = d.stack_slug.getD (e.getD emptyRoleEntry).StackSlug) := by
  constructor
  · intro e c d hapi hs
    rcases pathRolesWrite_shape e c d with ⟨m, hm⟩ | ⟨r, hr⟩
    · exact ⟨m, hm⟩
    · exfalso
      obtain ⟨n, r1, r2, r3, hn, h1, h2, h3, h4⟩ := pathRolesWrite_success_inv hr
      have e1 := roleBlockAPIType_ok_eq h1
      subst e1
      have e2 := roleBlockGcRole_ok_eq h2
      subst e2
      have hAPI2 : ({ { e.getD emptyRoleEntry with APIType := d.api_type.getD CloudAPIType } with
          GrafanaCloudRole := d.gc_role.getD (e.getD emptyRoleEntry).GrafanaCloudRole }).APIType
          = GrafanaAPIType := by
        simp [hapi]
      rw [roleBlockStackSlug_grafana_missing hAPI2 hs] at h3
      simp at h3
  · intro e c d r _ hr
    exact (pathRolesWrite_success_fields hr).2.2.1

/-- Witness for C4 (amended) at concrete data: a Grafana-kind write lacking
`stack_slug` is rejected, and the Cloud-kind write of the counterexample
stores the provided slug. -/
theorem claim_C4_witness :
    (∃ m, pathRolesWrite none true
      { name := some "rg", gc_role := some "Viewer", api_type := some "Grafana"
        stack_slug := none, ttl := none, max_ttl := none } = .errResp m) ∧
    (pathRolesWrite none true c4CloudSlugData =
      .success { APIType := "Cloud", StackSlug := "mystack"
                 GrafanaCloudRole := "Viewer", TTL := 0, MaxTTL := 0 } →
      ({ APIType := "Cloud", StackSlug := "mystack"
         GrafanaCloudRole := "Viewer", TTL := 0, MaxTTL := 0 } : grafanaCloudRoleEntry).StackSlug =
        (c4CloudSlugData.stack_slug.getD ((none : Option grafanaCloudRoleEntry).getD emptyRoleEntry).StackSlug)) :=
  ⟨claim_C4.1 none true _ rfl (id (.inl rfl)),
   fun hr => claim_C4.2 none true c4CloudSlugData _ (.inl rfl) hr⟩

/-! ## Claim C5 -/

/-- Concrete data for the C5 counterexample: an InstanceScoped (Grafana)
role write whose `gc_role` is a publisher level. -/
def c5PublisherData : RoleFieldData :=
  { name := some "r", gc_role := some "MetricsPublisher", api_type := some "Grafana"
    stack_slug := some "s1", ttl := none, max_ttl := none }

/-- Counterexample to C5 as stated: the spec's InstanceScoped enumeration is
a 3-value subset excluding the publisher levels, yet a Grafana-kind role
write with `gc_role = "MetricsPublisher"` is accepted and persisted — the
code validates against a single 5-value set for both kinds. -/
theorem claim_C5_counterexample :
    pathRolesWrite none true c5PublisherData =
      .success { APIType := "Grafana", StackSlug := "s1"
                 GrafanaCloudRole := "MetricsPublisher", TTL := 0, MaxTTL := 0 } := by
  decide

/-- Claim C5 (amended): role writes validate `gc_role` against the single
fixed 5-value set `{Viewer, Admin, Editor, MetricsPublisher,
PluginPublisher}` regardless of the credential kind: a successful write
with a provided `gc_role` implies the value is in that set and is stored
verbatim, and a provided value outside the set is never persisted. -/
theorem claim_C5 :
    (∀ e c d g r, d.gc_role = some g → pathRolesWrite e c d = .success r →
        grafanaCloudValidRoles g = true ∧ r.GrafanaCloudRole = g) ∧
    (∀ e c d g, d.gc_role = some g → grafanaCloudValidRoles g = false →
        ∀ r, pathRolesWrite e c d ≠ .success r) := by
  constructor
  · intro e c d g r hg hr
    obtain ⟨n, r1, r2, r3, hn, h1, h2, h3, h4⟩ := pathRolesWrite_success_inv hr
    refine ⟨roleBlockGcRole_ok_valid h2 hg, ?_⟩
    have := (pathRolesWrite_success_fields hr).2.1
    rw [hg] at this
    exact this
  · intro e c d g hg hbad r hr
    obtain ⟨n, r1, r2, r3, hn, h1, h2, h3, h4⟩ := pathRolesWrite_success_inv hr
    have hv := roleBlockGcRole_ok_valid h2 hg
    rw [hbad] at hv
    exact absurd hv (by decide)

/-- Witness for C5 at concrete data: a successful Grafana-kind write with
`gc_role = "MetricsPublisher"` implies membership in the single valid set. -/
theorem claim_C5_witness :
    grafanaCloudValidRoles "MetricsPublisher" = true ∧
    ({ APIType := "Grafana", StackSlug := "s1"
       GrafanaCloudRole := "MetricsPublisher", TTL := 0, MaxTTL := 0 } :
        grafanaCloudRoleEntry).GrafanaCloudRole = "MetricsPublisher" :=
  claim_C5.1 none true c5PublisherData "MetricsPublisher" _ rfl (by decide)

/-! ## Claim C9 -/

/-- Concrete data for the C9 counterexample: a Create with `name` present,
valid `gc_role`, effective kind Cloud, and `stack_slug` omitted. -/
def c9CreateData : RoleFieldData :=
  { name := some "r9", gc_role := some "Viewer", api_type := none
    stack_slug := none, ttl := none, max_ttl := none }

/-- Counterexample to C9 as stated: a Create operation whose request omits
`stack_slug` (with `gc_role` provided and valid, effective kind Cloud)
succeeds — it does not fail with the internal error "missing gc_role
value". -/
theorem claim_C9_counterexample :
    pathRolesWrite none true c9CreateData =
      .success { APIType := "Cloud", StackSlug := ""
                 GrafanaCloudRole := "Viewer", TTL := 0, MaxTTL := 0 } ∧
    pathRolesWrite none true c9CreateData ≠ .internalErr "missing gc_role value" := by
  constructor
  · decide
  · decide

/-- Claim C9 (amended): the `!ok && createOperation` check at the end of the
`stack_slug` block tests the presence flag bound with `name` at the top of
the handler (the `gc_role` and `stack_slug` flags are shadowed inside their
own blocks), and `name` is necessarily present past the initial guard, so
the check is dead code: no role write ever returns an internal error — in
particular Cloud-kind roles can be created without `stack_slug`, and even a
Create omitting `gc_role` passes this check. -/
theorem claim_C9 :
    ∀ e c d m, pathRolesWrite e c d ≠ .internalErr m := by
  intro e c d m h
  rcases pathRolesWrite_shape e c d with ⟨m', hm⟩ | ⟨r, hr⟩
  · rw [hm] at h
    exact absurd (h) (by simp)
  · rw [hr] at h
    exact absurd (h) (by simp)

/-- Witness for C9 at concrete data. -/
theorem claim_C9_witness :
    pathRolesWrite none true c9CreateData ≠ .internalErr "missing gc_role value" :=
  claim_C9 none true c9CreateData "missing gc_role value"

/-! ## Decimal print/parse round-trip

`keyRevoke` parses back (with `strconv.ParseInt`) the id that issuance
formatted (with `strconv.FormatInt`); these lemmas show the round-trip is
the identity, so the instance-scoped delete targets exactly the recorded
numeric id. -/

/-- Specification version of the decimal digits of `n` (for proofs). -/
def decDigits (n : Nat) : List Char :=
  if _h : n < 10 then [decDigitChar n]
  else decDigits (n / 10) ++ [decDigitChar (n % 10)]
termination_by n
decreasing_by
  exact Nat.div_lt_self (by omega) (by omega)

theorem natToDecAux_eq (fuel : Nat) : ∀ n acc, n < fuel →
    natToDecAux fuel n acc = decDigits n ++ acc := by
  induction fuel with
  | zero => intro n acc h; omega
  | succ f ih =>
    intro n acc h
    unfold natToDecAux
    by_cases h10 : n < 10
    · rw [decDigits]
      simp [h10]
    · have hdiv : n / 10 < n := Nat.div_lt_self (by omega) (by omega)
      rw [if_neg h10, ih (n / 10) _ (by omega)]
      conv_rhs => rw [decDigits]
      simp [h10, List.append_assoc]

theorem natToDecStr_data (n : Nat) : (natToDecStr n).data = decDigits n := by
  unfold natToDecStr
  rw [natToDecAux_eq (n + 1) n [] (by omega)]
  simp

theorem decDigitChar_isDigit {d : Nat} (hd : d < 10) : (decDigitChar d).isDigit = true := by
  interval_cases d <;> decide

theorem decDigitChar_toNat {d : Nat} (hd : d < 10) : (decDigitChar d).toNat = 48 + d := by
  interval_cases d <;> decide

theorem isDigit_ne_minus {c : Char} (h : c.isDigit = true) : c ≠ '-' := by
  intro e; subst e; exact absurd h (by decide)

theorem isDigit_ne_plus {c : Char} (h : c.isDigit = true) : c ≠ '+' := by
  intro e; subst e; exact absurd h (by decide)

theorem decDigits_all_digit (n : Nat) : (decDigits n).all Char.isDigit = true := by
  induction n using Nat.strong_induction_on with
  | _ n ih =>
    rw [decDigits]
    by_cases h10 : n < 10
    · simp only [h10, dite_true, List.all_cons, List.all_nil, Bool.and_true]
      exact decDigitChar_isDigit h10
    · have hdiv : n / 10 < n := Nat.div_lt_self (by omega) (by omega)
      simp only [h10, dite_false, List.all_append, List.all_cons, List.all_nil,
        Bool.and_true, Bool.and_eq_true]
      exact ⟨ih _ hdiv, decDigitChar_isDigit (Nat.mod_lt _ (by omega))⟩

theorem decDigits_ne_nil (n : Nat) : decDigits n ≠ [] := by
  rw [decDigits]
  split
  · simp
  · intro e
    have := (List.append_eq_nil.mp e).2
    simp at this

theorem decDigits_foldl (n : Nat) : ∀ a : Nat,
    (decDigits n).foldl (fun m c => m * 10 + (c.toNat - 48)) a =
      a * 10 ^ (decDigits n).length + n := by
  induction n using Nat.strong_induction_on with
  | _ n ih =>
    intro a
    rw [decDigits]
    by_cases h10 : n < 10
    · simp only [h10, dite_true, List.foldl_cons, List.foldl_nil, List.length_cons,
        List.length_nil]
      rw [decDigitChar_toNat h10]
      ring_nf
      omega
    · have hdiv : n / 10 < n := Nat.div_lt_self (by omega) (by omega)
      simp only [h10, dite_false, List.foldl_append, List.foldl_cons, List.foldl_nil,
        List.length_append, List.length_cons, List.length_nil]
      rw [ih _ hdiv a, decDigitChar_toNat (Nat.mod_lt _ (by omega))]
      have : a * 10 ^ ((decDigits (n / 10)).length + (0 + 1)) =
          a * 10 ^ (decDigits (n / 10)).length * 10 := by ring
      rw [this]
      omega

theorem decDigitsVal?_decDigits (n : Nat) : decDigitsVal? (decDigits n) = some n := by
  unfold decDigitsVal?
  rcases hd : decDigits n with _ | ⟨c, l⟩
  · exact absurd hd (decDigits_ne_nil n)
  · have hall := decDigits_all_digit n
    have hfold := decDigits_foldl n 0
    rw [hd] at hall hfold
    rw [if_pos hall, hfold]
    simp

/-- The `FormatInt`/`ParseInt` round-trip is the identity. -/
theorem parseIntOrZero_formatInt (i : Int) : parseIntOrZero (formatInt i) = i := by
  cases i with
  | ofNat n =>
    unfold formatInt parseIntOrZero
    rw [show (natToDecStr n).data = decDigits n from natToDecStr_data n]
    rcases hd : decDigits n with _ | ⟨c, l⟩
    · exact absurd hd (decDigits_ne_nil n)
    · have hall := decDigits_all_digit n
      rw [hd] at hall
      simp only [List.all_cons, Bool.and_eq_true] at hall
      simp only [isDigit_ne_minus hall.1, isDigit_ne_plus hall.1, if_false]
      rw [← hd, decDigitsVal?_decDigits n]
      rfl
  | negSucc m =>
    unfold formatInt parseIntOrZero
    rw [String.data_append, natToDecStr_data]
    have : ("-" : String).data = ['-'] := by decide
    rw [this]
    simp only [List.cons_append, List.nil_append, if_pos rfl]
    rw [decDigitsVal?_decDigits (m + 1)]
    simp [Int.negSucc_eq]

/-! ## Trace lemmas for the key operations -/

/-- The organisation-scoped issuance makes exactly one upstream call,
creating a key named `roleName_suffix`. -/
theorem createCloudKey_calls (env : Upstream) (org role suffix : String)
    (cfg : grafanaCloudConfig) (lvl : String) :
    (createCloudKey env org role suffix cfg lvl).2 =
      [UpstreamCall.createCloudKey org (role ++ "_" ++ suffix) lvl] := by
  unfold createCloudKey
  cases env.createCloudResp <;> rfl

/-- The issued organisation-scoped record carries the upstream response's
name and token verbatim. -/
theorem createCloudKey_ok_fields {env : Upstream} (org role suffix : String)
    (cfg : grafanaCloudConfig) (lvl : String) {k : CloudAPIKeyResp}
    (h : env.createCloudResp = .ok k) :
    Except.map GrafanaCloudKey.Name (createCloudKey env org role suffix cfg lvl).1 = .ok k.name ∧
    Except.map GrafanaCloudKey.Token (createCloudKey env org role suffix cfg lvl).1 = .ok k.token := by
  unfold createCloudKey
  rw [h]
  exact ⟨rfl, rfl⟩

/-- When the scoped client is acquired, the instance-scoped issuance trace
is acquire, then the privileged create of `roleName_suffix`, then cleanup. -/
theorem createGrafanaKey_calls {env : Upstream} (slug role suffix : String)
    (stl : Int) (cfg : grafanaCloudConfig) (lvl : String)
    (hacq : env.acquireResp = .ok ()) :
    (createGrafanaKey env slug role suffix stl cfg lvl).2 =
      [UpstreamCall.createTempClient slug tempKeyPfx tempKeyTTLSeconds,
       UpstreamCall.createInstanceKey (role ++ "_" ++ suffix) lvl stl,
       UpstreamCall.cleanupTemp (exceptOk env.cleanupResp)] := by
  unfold createGrafanaKey
  rw [hacq]
  cases env.createInstanceResp <;> rfl

/-- When the scoped client is acquired, the instance-scoped deletion trace
is acquire, then the privileged delete-by-id, then cleanup. -/
theorem deleteGrafanaAPIKey_calls {env : Upstream} (slug : String) (tokenID : Int)
    (hacq : env.acquireResp = .ok ()) :
    (deleteGrafanaAPIKey env slug tokenID).2 =
      [UpstreamCall.createTempClient slug tempKeyPfx tempKeyTTLSeconds,
       UpstreamCall.deleteInstanceKey tokenID,
       UpstreamCall.cleanupTemp (exceptOk env.cleanupResp)] := by
  unfold deleteGrafanaAPIKey
  rw [hacq]
  cases env.deleteInstanceResp <;> rfl

/-- Revocation with a missing or `"Cloud"` recorded kind makes exactly one
upstream call: delete the organisation key named by the recorded name. -/
theorem keyRevoke_cloud_trace (cfg : grafanaCloudConfig) (internal : SecretInternalData)
    (env : Upstream) (n : String) (hn : internal.name = some n)
    (ht : internal.type? = none ∨ internal.type? = some "Cloud") :
    (keyRevoke (some cfg) internal env).2 =
      [UpstreamCall.deleteCloudKey cfg.Organisation n] := by
  unfold keyRevoke getConfig
  rcases ht with ht | ht <;>
    simp only [hn, ht, Option.isSome_none, Option.isSome_some, Option.getD_none,
      Option.getD_some, Bool.not_false, Bool.not_true, Bool.true_or] <;>
  · rw [if_pos (by decide)]
    cases env.deleteCloudResp <;> rfl

/-- Revocation with recorded kind `"Grafana"` re-enters the scoped-client
protocol against the recorded `stack_slug` and deletes by the parse of the
recorded id. -/
theorem keyRevoke_grafana_trace (cfg : grafanaCloudConfig) (internal : SecretInternalData)
    (env : Upstream) (n i sl : String)
    (hn : internal.name = some n) (ht : internal.type? = some "Grafana")
    (hi : internal.id = some i) (hsl : internal.stack_slug = some sl)
    (hacq : env.acquireResp = .ok ()) :
    (keyRevoke (some cfg) internal env).2 =
      [UpstreamCall.createTempClient sl tempKeyPfx tempKeyTTLSeconds,
       UpstreamCall.deleteInstanceKey (parseIntOrZero i),
       UpstreamCall.cleanupTemp (exceptOk env.cleanupResp)] := by
  unfold keyRevoke getConfig
  simp only [hn, ht, hi, hsl, Option.isSome_some, Option.getD_some, Bool.not_true,
    Bool.false_or]
  rw [if_neg (by decide)]
  have hcalls := @deleteGrafanaAPIKey_calls env sl (parseIntOrZero i) hacq
  rcases hres : deleteGrafanaAPIKey env sl (parseIntOrZero i) with ⟨out, calls⟩
  rw [hres] at hcalls
  cases out <;> simpa using hcalls

/-! ## Claim C1 -/

/-- Claim C1: revocation branches on the credential kind recorded in the
lease metadata, defaulting to OrganisationScoped when the kind is absent:
an absent or `"Cloud"` kind deletes the organisation key by
`(organisationName, recorded externalName)`; a `"Grafana"` kind re-enters
the scoped-client protocol against the recorded `targetInstance` and
deletes by the recorded externalID (whose decimal parse is exactly the
numeric id recorded at issuance, by the format/parse round-trip). -/
theorem claim_C1 :
    (∀ (cfg : grafanaCloudConfig) (internal : SecretInternalData) (env : Upstream) (n : String),
      internal.name = some n →
      (internal.type? = none ∨ internal.type? = some "Cloud") →
      (keyRevoke (some cfg) internal env).2 =
        [UpstreamCall.deleteCloudKey cfg.Organisation n]) ∧
    (∀ cfg internal env (n i sl : String),
      internal.name = some n → internal.type? = some "Grafana" →
      internal.id = some i → internal.stack_slug = some sl →
      env.acquireResp = .ok () →
      (keyRevoke (some cfg) internal env).2 =
        [UpstreamCall.createTempClient sl tempKeyPfx tempKeyTTLSeconds,
         UpstreamCall.deleteInstanceKey (parseIntOrZero i),
         UpstreamCall.cleanupTemp (exceptOk env.cleanupResp)]) ∧
    (∀ cfg internal env (n sl : String) (m : Int),
      internal.name = some n → internal.type? = some "Grafana" →
      internal.id = some (formatInt m) → internal.stack_slug = some sl →
      env.acquireResp = .ok () →
      (keyRevoke (some cfg) internal env).2 =
        [UpstreamCall.createTempClient sl tempKeyPfx tempKeyTTLSeconds,
         UpstreamCall.deleteInstanceKey m,
         UpstreamCall.cleanupTemp (exceptOk env.cleanupResp)]) := by
  refine ⟨keyRevoke_cloud_trace, keyRevoke_grafana_trace, ?_⟩
  intro cfg internal env n sl m hn ht hi hsl hacq
  have := keyRevoke_grafana_trace cfg internal env n (formatInt m) sl hn ht hi hsl hacq
  rwa [parseIntOrZero_formatInt] at this

/-- Concrete metadata for the C1 witness: a Grafana-kind lease record whose
externalID is the decimal form of `42`. -/
def c1Internal : SecretInternalData :=
  { name := some "r_abc", type? := some "Grafana", id := some (formatInt 42)
    stack_slug := some "stack1" }

/-- Concrete upstream oracle for the C1 witness. -/
def c1Env : Upstream :=
  { createCloudResp := .error "unused", deleteCloudResp := .ok ()
    acquireResp := .ok (), createInstanceResp := .error "unused"
    deleteInstanceResp := .ok (), cleanupResp := .ok () }

/-- Concrete configuration shared by witnesses. -/
def cfgOrg : grafanaCloudConfig := { emptyConfig with Organisation := "org" }

/-- Witness for C1: revoking the concrete Grafana-kind record deletes key
`42` scoped to `stack1` through the scoped-client protocol. -/
theorem claim_C1_witness :
    (keyRevoke (some cfgOrg) c1Internal c1Env).2 =
      [UpstreamCall.createTempClient "stack1" tempKeyPfx tempKeyTTLSeconds,
       UpstreamCall.deleteInstanceKey 42,
       UpstreamCall.cleanupTemp true] :=
  claim_C1.2.2 cfgOrg c1Internal c1Env "r_abc" "stack1" 42 rfl rfl rfl rfl rfl

/-! ## Claim C2 -/

/-- Claim C2: in the scoped-client protocol (instance-scoped key creation
and deletion), whenever the temporary scoped client is acquired, the
cleanup handle runs after the privileged operation on every path — the call
trace ends with cleanup whether the operation succeeds or fails; the
cleanup outcome never changes the returned result; and a failing privileged
operation is the error that propagates (wrapped for create, unwrapped for
delete). -/
theorem claim_C2 :
    (∀ (env : Upstream) (slug role suffix : String) (stl : Int)
        (cfg : grafanaCloudConfig) (lvl : String),
      env.acquireResp = .ok () →
      (createGrafanaKey env slug role suffix stl cfg lvl).2 =
        [UpstreamCall.createTempClient slug tempKeyPfx tempKeyTTLSeconds,
         UpstreamCall.createInstanceKey (role ++ "_" ++ suffix) lvl stl,
         UpstreamCall.cleanupTemp (exceptOk env.cleanupResp)]) ∧
    (∀ (env : Upstream) (slug : String) (tokenID : Int),
      env.acquireResp = .ok () →
      (deleteGrafanaAPIKey env slug tokenID).2 =
        [UpstreamCall.createTempClient slug tempKeyPfx tempKeyTTLSeconds,
         UpstreamCall.deleteInstanceKey tokenID,
         UpstreamCall.cleanupTemp (exceptOk env.cleanupResp)]) ∧
    (∀ (env : Upstream) (c : Except String Unit) (slug role suffix : String) (stl : Int)
        (cfg : grafanaCloudConfig) (lvl : String),
      (createGrafanaKey { env with cleanupResp := c } slug role suffix stl cfg lvl).1 =
        (createGrafanaKey env slug role suffix stl cfg lvl).1) ∧
    (∀ (env : Upstream) (c : Except String Unit) (slug : String) (tokenID : Int),
      (deleteGrafanaAPIKey { env with cleanupResp := c } slug tokenID).1 =
        (deleteGrafanaAPIKey env slug tokenID).1) ∧
    (∀ (env : Upstream) (slug role suffix : String) (stl : Int)
        (cfg : grafanaCloudConfig) (lvl e : String),
      env.acquireResp = .ok () → env.createInstanceResp = .error e →
      (createGrafanaKey env slug role suffix stl cfg lvl).1 =
        .error ("error creating Grafana API key: " ++ e)) ∧
    (∀ (env : Upstream) (slug : String) (tokenID : Int) (e : String),
      env.acquireResp = .ok () → env.deleteInstanceResp = .error e →
      (deleteGrafanaAPIKey env slug tokenID).1 = .error e) := by
  refine ⟨fun env => createGrafanaKey_calls, fun env => deleteGrafanaAPIKey_calls, ?_, ?_, ?_, ?_⟩
  · intro env c slug role suffix stl cfg lvl
    unfold createGrafanaKey
    cases env.acquireResp <;> cases env.createInstanceResp <;> rfl
  · intro env c slug tokenID
    unfold deleteGrafanaAPIKey
    cases env.acquireResp <;> cases env.deleteInstanceResp <;> rfl
  · intro env slug role suffix stl cfg lvl e hacq hop
    unfold createGrafanaKey
    rw [hacq, hop]
  · intro env slug tokenID e hacq hop
    unfold deleteGrafanaAPIKey
    rw [hacq, hop]

/-- Concrete upstream oracle for the C2 witness: the privileged delete
fails and the cleanup also fails; cleanup still runs last and the delete's
error is the result. -/
def c2Env : Upstream :=
  { createCloudResp := .error "unused", deleteCloudResp := .ok ()
    acquireResp := .ok (), createInstanceResp := .error "unused"
    deleteInstanceResp := .error "boom", cleanupResp := .error "cleanup-failed" }

/-- Witness for C2 at a concrete oracle. -/
theorem claim_C2_witness :
    (deleteGrafanaAPIKey c2Env "s1" 7).2 =
      [UpstreamCall.createTempClient "s1" tempKeyPfx tempKeyTTLSeconds,
       UpstreamCall.deleteInstanceKey 7,
       UpstreamCall.cleanupTemp false] ∧
    (deleteGrafanaAPIKey c2Env "s1" 7).1 = .error "boom" :=
  ⟨claim_C2.2.1 c2Env "s1" 7 rfl, claim_C2.2.2.2.2.2 c2Env "s1" 7 "boom" rfl rfl⟩

/-! ## Claim C6 -/

/-- Distinct generated suffixes give distinct requested key names. -/
theorem tokenName_inj {role s1 s2 : String}
    (h : role ++ "_" ++ s1 = role ++ "_" ++ s2) : s1 = s2 := by
  have hd := congrArg String.data h
  simp only [String.data_append] at hd
  exact String.ext (List.append_cancel_left hd)

/-- Concrete upstream oracle for the C6 counterexample: the platform
returns the same token value for every create call. -/
def c6Env : Upstream :=
  { createCloudResp := .ok { name := "n", token := "t" }, deleteCloudResp := .ok ()
    acquireResp := .ok (), createInstanceResp := .error "unused"
    deleteInstanceResp := .ok (), cleanupResp := .ok () }

/-- Counterexample to C6 as stated: two issuances against the same role
with distinct uuid suffixes (`"a"` and `"b"`) can yield the *same* token —
the engine returns the upstream token verbatim, so token distinctness is
not guaranteed by the distinct suffixes alone. -/
theorem claim_C6_counterexample :
    ("a" : String) ≠ "b" ∧
    Except.map GrafanaCloudKey.Token (createCloudKey c6Env "org" "r" "a" emptyConfig "Viewer").1 =
      Except.map GrafanaCloudKey.Token (createCloudKey c6Env "org" "r" "b" emptyConfig "Viewer").1 := by
  exact ⟨by decide, rfl⟩

/-- Claim C6 (amended): the externalName sent upstream is exactly
`<roleName>_<suffix>` for both issuance protocols, distinct suffixes give
distinct sent names, and the issued record's name and token are the
upstream response's values verbatim — so two issuances yield distinct
tokens exactly when the upstream responses do. -/
theorem claim_C6 :
    (∀ (env : Upstream) (org role suffix : String) (cfg : grafanaCloudConfig) (lvl : String),
      (createCloudKey env org role suffix cfg lvl).2 =
        [UpstreamCall.createCloudKey org (role ++ "_" ++ suffix) lvl]) ∧
    (∀ (env : Upstream) (slug role suffix : String) (stl : Int)
        (cfg : grafanaCloudConfig) (lvl : String),
      env.acquireResp = .ok () →
      (createGrafanaKey env slug role suffix stl cfg lvl).2 =
        [UpstreamCall.createTempClient slug tempKeyPfx tempKeyTTLSeconds,
         UpstreamCall.createInstanceKey (role ++ "_" ++ suffix) lvl stl,
         UpstreamCall.cleanupTemp (exceptOk env.cleanupResp)]) ∧
    (∀ role s1 s2 : String, s1 ≠ s2 → role ++ "_" ++ s1 ≠ role ++ "_" ++ s2) ∧
    (∀ (env : Upstream) (org role suffix : String) (cfg : grafanaCloudConfig)
        (lvl : String) (k : CloudAPIKeyResp),
      env.createCloudResp = .ok k →
      Except.map GrafanaCloudKey.Name (createCloudKey env org role suffix cfg lvl).1 = .ok k.name ∧
      Except.map GrafanaCloudKey.Token (createCloudKey env org role suffix cfg lvl).1 = .ok k.token) ∧
    (∀ (env1 env2 : Upstream) (org role s1 s2 : String) (cfg : grafanaCloudConfig)
        (lvl : String) (k1 k2 : CloudAPIKeyResp),
      env1.createCloudResp = .ok k1 → env2.createCloudResp = .ok k2 →
      k1.token ≠ k2.token →
      Except.map GrafanaCloudKey.Token (createCloudKey env1 org role s1 cfg lvl).1 ≠
        Except.map GrafanaCloudKey.Token (createCloudKey env2 org role s2 cfg lvl).1) := by
  refine ⟨createCloudKey_calls, fun env => createGrafanaKey_calls, ?_, ?_, ?_⟩
  · intro role s1 s2 hne h
    exact hne (tokenName_inj h)
  · intro env org role suffix cfg lvl k h
    exact createCloudKey_ok_fields org role suffix cfg lvl h
  · intro env1 env2 org role s1 s2 cfg lvl k1 k2 h1 h2 hne
    rw [(createCloudKey_ok_fields org role s1 cfg lvl h1).2,
        (createCloudKey_ok_fields org role s2 cfg lvl h2).2]
    intro e
    exact hne (Except.ok.inj e)

/-- Witness for C6 at concrete data: suffixes `"a"` and `"b"` yield distinct
sent names, and distinct upstream tokens yield distinct issued tokens. -/
theorem claim_C6_witness :
    ("r" ++ "_" ++ "a" : String) ≠ "r" ++ "_" ++ "b" ∧
    Except.map GrafanaCloudKey.Token (createCloudKey c6Env "org" "r" "a" emptyConfig "Viewer").1 ≠
      Except.map GrafanaCloudKey.Token (createCloudKey
        { c6Env with createCloudResp := .ok { name := "n2", token := "t2" } }
        "org" "r" "b" emptyConfig "Viewer").1 :=
  ⟨claim_C6.2.2.1 "r" "a" "b" (by decide),
   claim_C6.2.2.2.2 c6Env { c6Env with createCloudResp := .ok { name := "n2", token := "t2" } }
     "org" "r" "a" "b" emptyConfig "Viewer" ⟨"n", "t"⟩ ⟨"n2", "t2"⟩ rfl rfl (by decide)⟩

/-! ## Claim C10 -/

/-- Claim C10: with no configuration stored, `getConfig` returns a nil
configuration and no error; the revoke entry point and the configuration
read endpoint then dereference that nil pointer, so both panic (for every
lease metadata and upstream behavior) instead of returning an error. -/
theorem claim_C10 :
    getConfig none = .ok none ∧
    (∀ (internal : SecretInternalData) (env : Upstream),
      keyRevoke none internal env = (GoOutcome.panics, [])) ∧
    pathConfigRead none = .panics :=
  ⟨rfl, fun _ _ => rfl, rfl⟩

/-! ## Claim C8 -/

/-- `TrimSuffix` correctness: when the suffix matches, re-appending it
restores the original string. -/
theorem trimSuffix_append {s suf : String} (h : hasSuffixStr s suf = true) :
    trimSuffix s suf ++ suf = s := by
  unfold hasSuffixStr at h
  rw [List.isSuffixOf_iff_suffix] at h
  obtain ⟨t, ht⟩ := h
  apply String.ext
  unfold trimSuffix hasSuffixStr
  rw [if_pos (by rw [List.isSuffixOf_iff_suffix]; exact ⟨t, ht⟩)]
  rw [String.data_append]
  show (s.data.take (s.data.length - suf.data.length)) ++ suf.data = s.data
  rw [← ht, List.length_append]
  have : t.length + suf.data.length - suf.data.length = t.length := by omega
  rw [this, List.take_left]

/-- Concrete config-write data for the C8 scenario. -/
def c8WriteData : ConfigFieldData :=
  { organisation := some "org", key := some "k", url := some "https://grafana.com/api/"
    user := none, prometheus_user := none, prometheus_url := none, loki_user := none
    loki_url := none, tempo_user := none, tempo_url := none, alertmanager_user := none
    alertmanager_url := none, graphite_user := none, graphite_url := none }

/-- The initial backend state: nothing stored, nothing cached. -/
def initialState : BackendState := { config := none, client := none, nextId := 0 }

/-- Claim C8: client construction normalizes the configured URL by
lower-casing it and stripping a trailing `api` (else `api/`) suffix — the
stripped normalization re-appended restores the lower-cased URL — and in
particular, after writing config with url `"https://grafana.com/api/"`, the
next client construction uses base URL `"https://grafana.com/"`. -/
theorem claim_C8 :
    (∀ url : String, hasSuffixStr (toLowerStr url) "api" = true →
      normalizeBaseURL url ++ "api" = toLowerStr url) ∧
    (∀ url : String, hasSuffixStr (toLowerStr url) "api" = false →
      hasSuffixStr (toLowerStr url) "api/" = true →
      normalizeBaseURL url ++ "api/" = toLowerStr url) ∧
    ((pathConfigWrite initialState true c8WriteData).1 = .success ∧
      (getClient (pathConfigWrite initialState true c8WriteData).2).1.baseURL =
        "https://grafana.com/") := by
  refine ⟨?_, ?_, ?_, ?_⟩
  · intro url h
    unfold normalizeBaseURL
    rw [if_pos h]
    exact trimSuffix_append h
  · intro url h1 h2
    unfold normalizeBaseURL
    rw [if_neg (by rw [h1]; exact Bool.false_ne_true)]
    rw [show ("api" ++ "/" : String) = "api/" from rfl, if_pos h2]
    exact trimSuffix_append h2
  · decide
  · decide

/-- Witness for C8: the general strip laws applied at the concrete URL. -/
theorem claim_C8_witness :
    normalizeBaseURL "https://grafana.com/api/" ++ "api/" = toLowerStr "https://grafana.com/api/" :=
  claim_C8.2.1 "https://grafana.com/api/" (by decide) (by decide)

/-! ## Claim C7 -/

/-- Invariant: every cached client was allocated below the counter. -/
def clientIdsBelow (s : BackendState) : Prop :=
  ∀ cl, s.client = some cl → cl.id < s.nextId

/-- A successful config write leaves the client cache cleared and the
allocation counter untouched. -/
theorem pathConfigWrite_success_state {s : BackendState} {co : Bool}
    {d : ConfigFieldData} {s' : BackendState}
    (h : pathConfigWrite s co d = (.success, s')) :
    s'.client = none ∧ s'.nextId = s.nextId := by
  unfold pathConfigWrite at h
  split at h
  · simp at h
  · dsimp only at h
    split at h
    · simp at h
    · rw [Prod.mk.injEq] at h
      rw [← h.2]
      exact ⟨rfl, rfl⟩

/-- A failing config write leaves the state untouched. -/
theorem pathConfigWrite_err_state {s : BackendState} {co : Bool}
    {d : ConfigFieldData} {m : String} {s' : BackendState}
    (h : pathConfigWrite s co d = (.err m, s')) : s' = s := by
  unfold pathConfigWrite at h
  split at h
  · exact (Prod.mk.injEq _ _ _ _ ▸ h).2.symm
  · dsimp only at h
    split at h
    · exact (Prod.mk.injEq _ _ _ _ ▸ h).2.symm
    · simp at h

/-- `getClient` preserves the allocation invariant. -/
theorem clientIdsBelow_getClient {s : BackendState} (hs : clientIdsBelow s) :
    clientIdsBelow (getClient s).2 := by
  unfold getClient
  cases hc : s.client with
  | some c => exact hs
  | none =>
    intro cl hcl
    simp only [Option.some.injEq] at hcl
    rw [← hcl]
    exact Nat.lt_succ_self _

/-- The client returned by `getClient` is allocated below the new counter. -/
theorem getClient_id_lt {s : BackendState} (hs : clientIdsBelow s) :
    (getClient s).1.id < (getClient s).2.nextId := by
  unfold getClient
  cases hc : s.client with
  | some c => exact hs c hc
  | none => exact Nat.lt_succ_self _

/-- Claim C7: once a client is cached, every subsequent Get returns the same
instance with the state unchanged, until a successful configuration write or
a configuration delete clears the cache (a failing write changes nothing);
the next Get then constructs a new instance — with a fresh allocation id,
hence not the previously returned one — from the then-current
configuration. -/
theorem claim_C7 :
    (∀ s c s', getClient s = (c, s') → getClient s' = (c, s')) ∧
    (∀ s co d s', pathConfigWrite s co d = (.success, s') →
      s'.client = none ∧ s'.nextId = s.nextId) ∧
    (∀ s, (pathConfigDelete s).client = none ∧ (pathConfigDelete s).nextId = s.nextId) ∧
    (∀ s co d m s', pathConfigWrite s co d = (.err m, s') → s' = s) ∧
    (∀ s, s.client = none →
      (getClient s).1 = { id := s.nextId
                          baseURL := normalizeBaseURL (s.config.getD emptyConfig).URL
                          apiKey := (s.config.getD emptyConfig).Key }) ∧
    (∀ s c s₁ co d s₂, clientIdsBelow s → getClient s = (c, s₁) →
      pathConfigWrite s₁ co d = (.success, s₂) → (getClient s₂).1 ≠ c) ∧
    (∀ s c s₁, clientIdsBelow s → getClient s = (c, s₁) →
      (getClient (pathConfigDelete s₁)).1 ≠ c) := by
  refine ⟨?_, ?_, ?_, ?_, ?_, ?_, ?_⟩
  · intro s c s' h
    unfold getClient at h ⊢
    cases hc : s.client with
    | some c0 =>
      rw [hc] at h
      simp only [Prod.mk.injEq] at h
      rw [← h.2, ← h.1, hc]
    | none =>
      rw [hc] at h
      simp only [Prod.mk.injEq] at h
      rw [← h.2]
      simp only
      rw [← h.1]
  · exact fun s co d s' => pathConfigWrite_success_state
  · intro s
    exact ⟨rfl, rfl⟩
  · exact fun s co d m s' => pathConfigWrite_err_state
  · intro s h
    unfold getClient
    rw [h]
  · intro s c s₁ co d s₂ hinv hget hwrite
    have hinv₁ : clientIdsBelow s₁ := by
      have := clientIdsBelow_getClient hinv
      rw [hget] at this
      exact this
    have hclt : c.id < s₁.nextId := by
      have := getClient_id_lt hinv
      rw [hget] at this
      exact this
    obtain ⟨hcl₂, hid₂⟩ := pathConfigWrite_success_state hwrite
    intro he
    have : (getClient s₂).1.id = s₂.nextId := by
      unfold getClient
      rw [hcl₂]
    rw [he] at this
    omega
  · intro s c s₁ hinv hget he
    have hclt : c.id < s₁.nextId := by
      have := getClient_id_lt hinv
      rw [hget] at this
      exact this
    have : (getClient (pathConfigDelete s₁)).1.id = (pathConfigDelete s₁).nextId := by
      unfold getClient
      have : (pathConfigDelete s₁).client = none := rfl
      rw [this]
    rw [he] at this
    have hnid : (pathConfigDelete s₁).nextId = s₁.nextId := rfl
    omega

/-- Witness for C7 at concrete states: a Get caches a client, a second Get
returns the same instance, a config write clears the cache, and the next
Get returns a different instance. -/
theorem claim_C7_witness :
    getClient (getClient initialState).2 =
      ((getClient initialState).1, (getClient initialState).2) ∧
    (getClient (pathConfigWrite (getClient initialState).2 true c8WriteData).2).1 ≠
      (getClient initialState).1 :=
  ⟨claim_C7.1 initialState (getClient initialState).1 (getClient initialState).2 rfl,
   claim_C7.2.2.2.2.2.1 initialState (getClient initialState).1 (getClient initialState).2
     true c8WriteData (pathConfigWrite (getClient initialState).2 true c8WriteData).2
     (fun cl hcl => by simp [initialState] at hcl) rfl (by decide)⟩

end GrafanaCloud
